import Mathlib

/-!
Verification of the geodesy toolkit (Vincenty direct solution, Cartesian to
geodetic conversion, datum and reference-frame Helmert transforms) against its
natural-language specification.  Real-number (`ℝ`) based shallow embedding of
the JavaScript / VB sources; IEEE special values (NaN, infinities) are modelled
explicitly where the source's control flow depends on them.
-/

set_option maxHeartbeats 1000000

/- ### Angle conversion (Number.prototype.toRadians / toDegrees, dms.js) -/

noncomputable def toRadians (d : ℝ) : ℝ := d * Real.pi / 180

noncomputable def toDegrees (r : ℝ) : ℝ := r * 180 / Real.pi

/-- Two-argument arctangent with the quadrant conventions of `Math.atan2(y, x)`
(signed zeros are not distinguished; `atan2 0 0 = 0`). -/
noncomputable def atan2 (y x : ℝ) : ℝ :=
  if 0 < x then Real.arctan (y / x)
  else if x < 0 ∧ 0 ≤ y then Real.arctan (y / x) + Real.pi
  else if x < 0 ∧ y < 0 then Real.arctan (y / x) - Real.pi
  else if x = 0 ∧ 0 < y then Real.pi / 2
  else if x = 0 ∧ y < 0 then -(Real.pi / 2)
  else 0

/- ### The JavaScript remainder operator `%` on real operands.
JavaScript `%` truncates the quotient towards zero (it is a remainder, not a
modulo, as the comments in `Dms.wrap90/wrap180/wrap360` note). -/

noncomputable def jsTrunc (t : ℝ) : ℤ := if 0 ≤ t then ⌊t⌋ else ⌈t⌉

noncomputable def jsRem (x n : ℝ) : ℝ := x - n * (jsTrunc (x / n) : ℝ)

/- ### Dms.wrap90 / wrap180 / wrap360 (dms.js lines 154-191) -/

/-- Constrain degrees to the range -90..+90 for latitude: the source's triangle
wave `4*a/p * |(((x - p/4) % p) + p) % p - p/2| - a` with amplitude `a = 90`
and period `p = 360`. -/
noncomputable def wrap90 (degrees : ℝ) : ℝ :=
  if -90 ≤ degrees ∧ degrees ≤ 90 then degrees
  else 4 * 90 / 360 * |jsRem (jsRem (degrees - 360 / 4) 360 + 360) 360 - 360 / 2| - 90

/-- Constrain degrees to the range -180..+180 for longitude: the source's
sawtooth wave `((2*a*x/p - p/2) % p + p) % p - a` with `a = 180`, `p = 360`. -/
noncomputable def wrap180 (degrees : ℝ) : ℝ :=
  if -180 ≤ degrees ∧ degrees ≤ 180 then degrees
  else jsRem (jsRem (2 * 180 * degrees / 360 - 360 / 2) 360 + 360) 360 - 180

/-- Constrain degrees to the range 0..360 for bearings: the source's shifted
sawtooth `((2*a*x/p) % p + p) % p` with `a = 180`, `p = 360`. -/
noncomputable def wrap360 (degrees : ℝ) : ℝ :=
  if 0 ≤ degrees ∧ degrees < 360 then degrees
  else jsRem (jsRem (2 * 180 * degrees / 360) 360 + 360) 360

/- ### Data model: ellipsoids, datums, geodetic points (latlon-ellipsoidal.js) -/

structure Ellipsoid where
  a : ℝ
  b : ℝ
  f : ℝ

/-- The only ellipsoid defined in latlon-ellipsoidal.js (`ellipsoids.WGS84`). -/
noncomputable def wgs84Ellipsoid : Ellipsoid :=
  ⟨6378137, 6356752.314245, 1 / 298.257223563⟩

/-- A datum as consumed by the Vincenty code: the only field it reads is
`datum.ellipsoid` (latlon_ellipsoidal vincenty, line 55). -/
structure VDatum where
  ellipsoid : Ellipsoid

/-- A JavaScript number that is either NaN or a (finite) real.  The Vincenty
guards only distinguish NaN from numeric values, so infinities are not
separated here (they are in `JsVal`, used for the Cartesian conversion). -/
inductive JsNum where
  | nan : JsNum
  | val : ℝ → JsNum

/-- A geodetic point as stored by the `LatLonEllipsoidal` constructor:
latitude and longitude already wrapped, height as given, and the optional
datum (the base class keeps `_datum` unset unless assigned via its setter). -/
structure VPoint where
  lat : ℝ
  lon : ℝ
  height : ℝ
  datum : Option VDatum

inductive VincentyError where
  | typeError : VincentyError
  | rangeError : VincentyError
  | evalError : VincentyError
deriving DecidableEq

/-- The `LatLonEllipsoidal` constructor (latlon-ellipsoidal.js lines 33-41):
NaN latitude/longitude/height raise TypeError, otherwise the latitude is
wrapped with `Dms.wrap90`, the longitude with `Dms.wrap180`, and the height
stored as given.  No datum parameter exists; `_datum` stays unset. -/
noncomputable def latLonCtor (lat lon height : JsNum) : Except VincentyError VPoint :=
  match lat, lon, height with
  | .val la, .val lo, .val h => .ok ⟨wrap90 la, wrap180 lo, h, none⟩
  | _, _, _ => .error .typeError

/-- The numeric case of the `lat` setter (latlon-ellipsoidal.js lines 46-49):
assigning a number re-wraps it with `Dms.wrap90`.  (The string-parsing branch
of the setter is outside the scope of the claims.) -/
noncomputable def setLat (p : VPoint) (v : ℝ) : VPoint :=
  ⟨wrap90 v, p.lon, p.height, p.datum⟩

/-- The numeric case of the `lon` setter (latlon-ellipsoidal.js lines 59-62). -/
noncomputable def setLon (p : VPoint) (v : ℝ) : VPoint :=
  ⟨p.lat, wrap180 v, p.height, p.datum⟩

/- ### Bounds for the JavaScript remainder -/

theorem jsRem_nonneg_lt {x n : ℝ} (hx : 0 ≤ x) (hn : 0 < n) :
    0 ≤ jsRem x n ∧ jsRem x n < n := by
  have hq : 0 ≤ x / n := div_nonneg hx hn.le
  have htr : jsTrunc (x / n) = ⌊x / n⌋ := if_pos hq
  have hxn : n * (x / n) = x := by field_simp
  have h1 : (⌊x / n⌋ : ℝ) ≤ x / n := Int.floor_le _
  have h2 : x / n < (⌊x / n⌋ : ℝ) + 1 := Int.lt_floor_add_one _
  have h1n : n * (⌊x / n⌋ : ℝ) ≤ n * (x / n) := by nlinarith
  have h2n : n * (x / n) < n * ((⌊x / n⌋ : ℝ) + 1) := by nlinarith
  have hr : jsRem x n = x - n * (⌊x / n⌋ : ℝ) := by rw [jsRem, htr]
  constructor
  · rw [hr]; nlinarith
  · rw [hr]; nlinarith

theorem jsRem_abs_lt {x n : ℝ} (hn : 0 < n) : -n < jsRem x n ∧ jsRem x n < n := by
  rcases le_or_lt 0 (x / n) with hq | hq
  · have hx : 0 ≤ x := by
      by_contra hneg
      push_neg at hneg
      have : x / n < 0 := div_neg_of_neg_of_pos hneg hn
      linarith
    have h := jsRem_nonneg_lt hx hn
    exact ⟨by linarith [h.1], h.2⟩
  · have htr : jsTrunc (x / n) = ⌈x / n⌉ := if_neg (by linarith)
    have hxn : n * (x / n) = x := by field_simp
    have h1 : x / n ≤ (⌈x / n⌉ : ℝ) := Int.le_ceil _
    have h2 : (⌈x / n⌉ : ℝ) < x / n + 1 := Int.ceil_lt_add_one _
    have h1n : n * (x / n) ≤ n * (⌈x / n⌉ : ℝ) := by nlinarith
    have h2n : n * (⌈x / n⌉ : ℝ) < n * (x / n + 1) := by nlinarith
    have hr : jsRem x n = x - n * (⌈x / n⌉ : ℝ) := by rw [jsRem, htr]
    constructor
    · rw [hr]; nlinarith
    · rw [hr]; nlinarith

/- ### Wrapping bounds -/

theorem wrap90_mem (x : ℝ) : -90 ≤ wrap90 x ∧ wrap90 x ≤ 90 := by
  unfold wrap90
  split
  · next h => exact h
  · next h =>
    have hinner := jsRem_abs_lt (x := x - 360 / 4) (n := 360) (by norm_num)
    have houter := jsRem_nonneg_lt (x := jsRem (x - 360 / 4) 360 + 360) (n := 360)
      (by linarith [hinner.1]) (by norm_num)
    have habs : |jsRem (jsRem (x - 360 / 4) 360 + 360) 360 - 360 / 2| ≤ 180 := by
      rw [abs_le]
      constructor <;> [linarith [houter.2]; linarith [houter.1]]
    have habs0 : 0 ≤ |jsRem (jsRem (x - 360 / 4) 360 + 360) 360 - 360 / 2| := abs_nonneg _
    constructor <;> linarith

theorem wrap180_mem (x : ℝ) : -180 ≤ wrap180 x ∧ wrap180 x ≤ 180 := by
  unfold wrap180
  split
  · next h => exact h
  · next h =>
    have hinner := jsRem_abs_lt (x := 2 * 180 * x / 360 - 360 / 2) (n := 360) (by norm_num)
    have houter := jsRem_nonneg_lt
      (x := jsRem (2 * 180 * x / 360 - 360 / 2) 360 + 360) (n := 360)
      (by linarith [hinner.1]) (by norm_num)
    constructor <;> [linarith [houter.1]; linarith [houter.2]]

theorem wrap360_mem (x : ℝ) : 0 ≤ wrap360 x ∧ wrap360 x < 360 := by
  unfold wrap360
  split
  · next h => exact h
  · next h =>
    have hinner := jsRem_abs_lt (x := 2 * 180 * x / 360) (n := 360) (by norm_num)
    exact jsRem_nonneg_lt (by linarith [hinner.1]) (by norm_num)

/- ### Concrete wrap evaluations -/

theorem jsRem_one_360 : jsRem 1 360 = 1 := by
  have h : jsTrunc ((1 : ℝ) / 360) = ⌊(1 : ℝ) / 360⌋ := if_pos (by norm_num)
  have hf : ⌊(1 : ℝ) / 360⌋ = 0 := by
    rw [Int.floor_eq_zero_iff]
    constructor <;> norm_num
  rw [jsRem, h, hf]
  norm_num

theorem jsRem_361_360 : jsRem 361 360 = 1 := by
  have h : jsTrunc ((361 : ℝ) / 360) = ⌊(361 : ℝ) / 360⌋ := if_pos (by norm_num)
  have hf : ⌊(361 : ℝ) / 360⌋ = 1 := by
    rw [Int.floor_eq_iff]
    constructor <;> norm_num
  rw [jsRem, h, hf]
  norm_num

theorem wrap90_91 : wrap90 91 = 89 := by
  unfold wrap90
  rw [if_neg (by norm_num)]
  have h1 : (91 : ℝ) - 360 / 4 = 1 := by norm_num
  simp only [h1, jsRem_one_360]
  have h2 : (1 : ℝ) + 360 = 361 := by norm_num
  rw [h2, jsRem_361_360]
  rw [show |(1 : ℝ) - 360 / 2| = 179 by rw [abs_of_nonpos] <;> norm_num]
  norm_num

theorem wrap180_181 : wrap180 181 = -179 := by
  unfold wrap180
  rw [if_neg (by norm_num)]
  have h1 : 2 * (180 : ℝ) * 181 / 360 - 360 / 2 = 1 := by norm_num
  simp only [h1, jsRem_one_360]
  have h2 : (1 : ℝ) + 360 = 361 := by norm_num
  rw [h2, jsRem_361_360]
  norm_num

theorem wrap90_zero : wrap90 0 = 0 := by
  unfold wrap90
  rw [if_pos (by norm_num)]

theorem wrap180_neg180 : wrap180 (-180) = -180 := by
  unfold wrap180
  rw [if_pos (by norm_num)]

/- ### Vincenty direct solution (latlon_ellipsoidal vincenty, part_000) -/

/-- Ellipsoid selection of the direct solution, line 55:
`this.datum ? this.datum.ellipsoid : LatLonEllipsoidal.ellipsoids.WGS84`. -/
noncomputable def ellipsoidOf (p : VPoint) : Ellipsoid :=
  match p.datum with
  | some d => d.ellipsoid
  | none => wgs84Ellipsoid

/-- The result object of `direct`: `{ point, finalBearing, iterations }`.
`finalBearing` is NaN for the zero-distance short circuit, hence a `JsNum`. -/
structure DirectResult where
  point : VPoint
  finalBearing : JsNum
  iterations : ℕ

/-- One pass of the sigma-update of the direct solution (lines 74-79): given
the angular distance `σ`, return `s/(b*A) + Δσ`.  The prelude constants are
recomputed here; in the source they are closed over by the loop body. -/
noncomputable def directStep (p : VPoint) (brg s : ℝ) (σ : ℝ) : ℝ :=
  let φ1 := toRadians p.lat
  let α1 := toRadians brg
  let ell := ellipsoidOf p
  let a := ell.a
  let b := ell.b
  let f := ell.f
  let sinα1 := Real.sin α1
  let cosα1 := Real.cos α1
  let tanU1 := (1 - f) * Real.tan φ1
  let cosU1 := 1 / Real.sqrt (1 + tanU1 * tanU1)
  let σ1 := atan2 tanU1 cosα1
  let sinα := cosU1 * sinα1
  let cosSqα := 1 - sinα * sinα
  let uSq := cosSqα * (a * a - b * b) / (b * b)
  let A := 1 + uSq / 16384 * (4096 + uSq * (-768 + uSq * (320 - 175 * uSq)))
  let B := uSq / 1024 * (256 + uSq * (-128 + uSq * (74 - 47 * uSq)))
  let cos2σm := Real.cos (2 * σ1 + σ)
  let sinσ := Real.sin σ
  let cosσ := Real.cos σ
  let Δσ := B * sinσ * (cos2σm + B / 4 * (cosσ * (-1 + 2 * cos2σm * cos2σm) -
      B / 6 * cos2σm * (-3 + 4 * sinσ * sinσ) * (-3 + 4 * cos2σm * cos2σm)))
  s / (b * A) + Δσ

/-- The initial value of the sigma iteration (line 69): `σ = s / (b*A)`. -/
noncomputable def directSigma0 (p : VPoint) (brg s : ℝ) : ℝ :=
  let φ1 := toRadians p.lat
  let α1 := toRadians brg
  let ell := ellipsoidOf p
  let a := ell.a
  let b := ell.b
  let f := ell.f
  let sinα1 := Real.sin α1
  let cosU1 := 1 / Real.sqrt (1 + ((1 - f) * Real.tan φ1) * ((1 - f) * Real.tan φ1))
  let sinα := cosU1 * sinα1
  let cosSqα := 1 - sinα * sinα
  let uSq := cosSqα * (a * a - b * b) / (b * b)
  let A := 1 + uSq / 16384 * (4096 + uSq * (-768 + uSq * (320 - 175 * uSq)))
  s / (b * A)

/-- The do-while loop of the direct solution (lines 73-80):
`do { ... σʹ = σ; σ = step σ } while (|σ - σʹ| > 1e-12 && ++iterations < 100)`.
Returns (final σ, σ at entry of the last pass — the value whose sin/cos the
source keeps — , iterations).  `iterations` counts the passes that failed the
convergence test, exactly as the source's `++iterations` inside the `&&`.
The recursion is on `fuel`, called with `fuel = 99` so that `fuel = 99 -
iterations`: recursing while `fuel > 0` is the source's `++iterations < 100`. -/
noncomputable def directLoopF (g : ℝ → ℝ) : ℕ → ℝ → ℕ → ℝ × ℝ × ℕ
  | fuel, σ, iterations =>
    let σn := g σ
    if |σn - σ| ≤ 1e-12 then (σn, σ, iterations)
    else
      match fuel with
      | 0 => (σn, σ, iterations + 1)
      | f + 1 => directLoopF g f σn (iterations + 1)

/-- Vincenty direct solution (lines 43-99).  Guard order as in the source:
NaN distance -> TypeError; distance 0 -> zero result (origin itself, NaN final
bearing, 0 iterations); NaN bearing -> TypeError; nonzero height -> RangeError.
After the loop: EvalError when `iterations >= 100`, otherwise the destination
point and final bearing.  The destination is built through the 3-parameter
`LatLonEllipsoidal` constructor, which silently drops the 4th (`this.datum`)
argument of the call on line 92 — hence `datum := none`. -/
noncomputable def direct (p : VPoint) (distance initialBearing : JsNum) :
    Except VincentyError DirectResult :=
  match distance with
  | .nan => .error .typeError
  | .val s =>
    if s = 0 then .ok ⟨p, .nan, 0⟩
    else
      match initialBearing with
      | .nan => .error .typeError
      | .val brg =>
        if p.height ≠ 0 then .error .rangeError
        else
          let φ1 := toRadians p.lat
          let lam1 := toRadians p.lon
          let α1 := toRadians brg
          let ell := ellipsoidOf p
          let f := ell.f
          let sinα1 := Real.sin α1
          let cosα1 := Real.cos α1
          let tanU1 := (1 - f) * Real.tan φ1
          let cosU1 := 1 / Real.sqrt (1 + tanU1 * tanU1)
          let sinU1 := tanU1 * cosU1
          let σ1 := atan2 tanU1 cosα1
          let sinα := cosU1 * sinα1
          let cosSqα := 1 - sinα * sinα
          let r := directLoopF (directStep p brg s) 99 (directSigma0 p brg s) 0
          if 100 ≤ r.2.2 then .error .evalError
          else
            let σ := r.1
            let sinσ := Real.sin r.2.1
            let cosσ := Real.cos r.2.1
            let cos2σm := Real.cos (2 * σ1 + r.2.1)
            let x := sinU1 * sinσ - cosU1 * cosσ * cosα1
            let φ2 := atan2 (sinU1 * cosσ + cosU1 * sinσ * cosα1)
              ((1 - f) * Real.sqrt (sinα * sinα + x * x))
            let lam := atan2 (sinσ * sinα1) (cosU1 * cosσ - sinU1 * sinσ * cosα1)
            let C := f / 16 * cosSqα * (4 + f * (4 - 3 * cosSqα))
            let L := lam - (1 - C) * f * sinα *
              (σ + C * sinσ * (cos2σm + C * cosσ * (-1 + 2 * cos2σm * cos2σm)))
            let lam2 := lam1 + L
            let α2 := atan2 sinα (-x)
            let destinationPoint : VPoint :=
              ⟨wrap90 (toDegrees φ2), wrap180 (toDegrees lam2), 0, none⟩
            .ok ⟨destinationPoint, .val (wrap360 (toDegrees α2)), r.2.2⟩

/- ### Inverse-based wrappers (part_002, VB `LatLonEllipsoidal_Vincenty`) -/

/-- The result object of the Vincenty inverse solution as consumed by the
wrappers `DistanceTo`, `InitialBearingTo`, `FinalBearingTo`. -/
structure InverseResult where
  distance : ℝ
  initialBearing : ℝ
  finalBearing : ℝ

/-- Rounding to `dp` decimal places (`Math.Round(x, dp)`).  The claims settled
here do not depend on the midpoint convention (VB rounds half to even). -/
noncomputable def roundDp (dp : ℕ) (x : ℝ) : ℝ := (round (x * 10 ^ dp) : ℤ) / 10 ^ dp

/-- `DistanceTo` (part_002 lines 25-35): try the inverse solution, round its
distance to 1mm; catch: an EvalError (non-convergence) becomes NaN, any other
exception is rethrown.  The inverse computation itself is not part of src/, so
the wrapper is a function of the inverse outcome. -/
noncomputable def DistanceTo (inv : Except VincentyError InverseResult) :
    Except VincentyError JsNum :=
  match inv with
  | .ok r => .ok (.val (roundDp 3 r.distance))
  | .error .evalError => .ok .nan
  | .error e => .error e

/-- `InitialBearingTo` (part_002 lines 43-53): as `DistanceTo` but rounding the
initial bearing to 7 decimal places. -/
noncomputable def InitialBearingTo (inv : Except VincentyError InverseResult) :
    Except VincentyError JsNum :=
  match inv with
  | .ok r => .ok (.val (roundDp 7 r.initialBearing))
  | .error .evalError => .ok .nan
  | .error e => .error e

/-- `FinalBearingTo` (part_002 lines 61-71): as `DistanceTo` but rounding the
final bearing to 7 decimal places. -/
noncomputable def FinalBearingTo (inv : Except VincentyError InverseResult) :
    Except VincentyError JsNum :=
  match inv with
  | .ok r => .ok (.val (roundDp 7 r.finalBearing))
  | .error .evalError => .ok .nan
  | .error e => .error e

/- ### Loop lemmas for the sigma iteration -/

theorem directLoopF_le (g : ℝ → ℝ) :
    ∀ (fuel : ℕ) (σ : ℝ) (iterations : ℕ),
      (directLoopF g fuel σ iterations).2.2 ≤ iterations + fuel + 1 := by
  intro fuel
  induction fuel with
  | zero =>
    intro σ iterations
    rw [directLoopF]
    split
    · dsimp only
      omega
    · dsimp only
      omega
  | succ f ih =>
    intro σ iterations
    rw [directLoopF]
    split
    · dsimp only
      omega
    · have h := ih (g σ) (iterations + 1)
      omega

theorem directLoopF_cap_iff (g : ℝ → ℝ) :
    ∀ (fuel : ℕ) (σ : ℝ) (iterations : ℕ),
      ((directLoopF g fuel σ iterations).2.2 = iterations + fuel + 1 ↔
        ∀ k ≤ fuel, 1e-12 < |g^[k + 1] σ - g^[k] σ|) := by
  intro fuel
  induction fuel with
  | zero =>
    intro σ iterations
    rw [directLoopF]
    split
    · next hconv =>
      dsimp only
      constructor
      · intro h
        exfalso
        omega
      · intro h
        exfalso
        have h0 := h 0 (le_refl 0)
        simp only [zero_add, Function.iterate_one, Function.iterate_zero, id_eq] at h0
        linarith
    · next hconv =>
      push_neg at hconv
      dsimp only
      constructor
      · intro _ k hk
        cases k with
        | zero =>
          simpa only [zero_add, Function.iterate_one, Function.iterate_zero, id_eq] using hconv
        | succ j => exact (Nat.not_succ_le_zero j hk).elim
      · intro _
        omega
  | succ f ih =>
    intro σ iterations
    rw [directLoopF]
    split
    · next hconv =>
      dsimp only
      constructor
      · intro h
        exfalso
        omega
      · intro h
        exfalso
        have h0 := h 0 (Nat.zero_le _)
        simp only [zero_add, Function.iterate_one, Function.iterate_zero, id_eq] at h0
        linarith
    · next hconv =>
      push_neg at hconv
      have hih := ih (g σ) (iterations + 1)
      constructor
      · intro h k hk
        have hcap : (directLoopF g f (g σ) (iterations + 1)).2.2 =
            iterations + 1 + f + 1 := by omega
        have hall := hih.mp hcap
        cases k with
        | zero =>
          simpa only [zero_add, Function.iterate_one, Function.iterate_zero, id_eq] using hconv
        | succ j =>
          have hj : j ≤ f := by omega
          have hstep := hall j hj
          simpa only [Function.iterate_succ_apply] using hstep
      · intro h
        have hcap : (directLoopF g f (g σ) (iterations + 1)).2.2 =
            iterations + 1 + f + 1 := by
          apply hih.mpr
          intro j hj
          have hstep := h (j + 1) (by omega)
          simpa only [Function.iterate_succ_apply] using hstep
        omega

/- ### Guard-path evaluations of the direct solution -/

theorem direct_nan_distance (p : VPoint) (brg : JsNum) :
    direct p .nan brg = .error .typeError := rfl

theorem direct_zero_distance (p : VPoint) (brg : JsNum) :
    direct p (.val 0) brg = .ok ⟨p, .nan, 0⟩ := by
  unfold direct
  dsimp only
  rw [if_pos rfl]

theorem direct_nan_bearing (p : VPoint) (s : ℝ) (hs : s ≠ 0) :
    direct p (.val s) .nan = .error .typeError := by
  unfold direct
  dsimp only
  rw [if_neg hs]

theorem direct_bad_height (p : VPoint) (s brg : ℝ) (hs : s ≠ 0) (hh : p.height ≠ 0) :
    direct p (.val s) (.val brg) = .error .rangeError := by
  unfold direct
  dsimp only
  rw [if_neg hs, if_pos hh]

/- ### Concrete trigonometric evaluations -/

theorem toRadians_zero : toRadians 0 = 0 := by
  unfold toRadians
  ring

theorem toRadians_90 : toRadians 90 = Real.pi / 2 := by
  unfold toRadians
  ring

theorem atan2_zero_zero : atan2 0 0 = 0 := by
  unfold atan2
  norm_num

theorem atan2_one_zero : atan2 1 0 = Real.pi / 2 := by
  unfold atan2
  norm_num

theorem toDegrees_pi_div_two : toDegrees (Real.pi / 2) = 90 := by
  unfold toDegrees
  field_simp
  ring

theorem wrap360_90 : wrap360 90 = 90 := by
  unfold wrap360
  rw [if_pos (by norm_num)]

/- ### Evaluation of the direct solution from the origin with bearing 90.
From latitude 0 with initial bearing 90 the equatorial azimuth is 90, so
`cos²α = 0`, the series terms `A = 1`, `B = 0` vanish, and the sigma
iteration converges on its first pass with 0 iterations. -/

theorem directStep_origin (dopt : Option VDatum) (s σ : ℝ) :
    directStep ⟨0, 0, 0, dopt⟩ 90 s σ = directSigma0 ⟨0, 0, 0, dopt⟩ 90 s := by
  unfold directStep directSigma0
  dsimp only
  simp only [toRadians_zero, toRadians_90, Real.tan_zero, mul_zero, zero_mul,
    Real.sin_pi_div_two, Real.cos_pi_div_two, add_zero, zero_add, mul_one, one_mul,
    Real.sqrt_one, sub_zero, zero_div, zero_sub, neg_zero]
  norm_num

theorem directLoopF_fix (g : ℝ → ℝ) (σ0 : ℝ) (h : g σ0 = σ0) (fuel : ℕ) :
    directLoopF g fuel σ0 0 = (σ0, σ0, 0) := by
  rw [directLoopF.eq_def]
  dsimp only
  rw [h]
  rw [if_pos (by rw [sub_self, abs_zero]; norm_num)]

theorem direct_origin_eval (dopt : Option VDatum) (s : ℝ) (hs : s ≠ 0) :
    ∃ lat2 lon2,
      direct ⟨0, 0, 0, dopt⟩ (.val s) (.val 90) =
        .ok ⟨⟨lat2, lon2, 0, none⟩, .val 90, 0⟩ := by
  have hstep := directStep_origin dopt s (directSigma0 ⟨0, 0, 0, dopt⟩ 90 s)
  have hloop := directLoopF_fix (directStep ⟨0, 0, 0, dopt⟩ 90 s)
      (directSigma0 ⟨0, 0, 0, dopt⟩ 90 s) hstep 99
  unfold direct
  dsimp only
  rw [if_neg hs]
  rw [if_neg (by norm_num : ¬((0 : ℝ) ≠ 0))]
  rw [hloop]
  dsimp only
  rw [if_neg (by norm_num : ¬(100 ≤ 0))]
  simp only [toRadians_zero, toRadians_90, Real.tan_zero, mul_zero, zero_mul,
    Real.sin_pi_div_two, Real.cos_pi_div_two, add_zero, zero_add, mul_one, one_mul,
    Real.sqrt_one, sub_zero, zero_sub, neg_zero, neg_neg, sub_self]
  norm_num
  rw [atan2_one_zero, toDegrees_pi_div_two, wrap360_90]

/- ### Claim theorems for the Vincenty direct solution -/

/-- C1 counterexample.  The claim states that a nonzero origin height always
fails with RangeError and a NaN bearing always fails with TypeError, for all
values of the other arguments.  Both fail: with distance 0 the zero-distance
early return (line 46) fires before the bearing and height checks, so the call
succeeds. -/
theorem claim1_counterexample :
    (⟨0, 0, 1, none⟩ : VPoint).height ≠ 0 ∧
    direct ⟨0, 0, 1, none⟩ (.val 0) (.val 7) ≠ .error .rangeError ∧
    direct ⟨0, 0, 1, none⟩ (.val 0) .nan ≠ .error .typeError := by
  refine ⟨by norm_num, ?_, ?_⟩
  · rw [direct_zero_distance]
    simp
  · rw [direct_zero_distance]
    simp

/-- C1 (amended).  The checks of `direct` run in source order: NaN distance
fails with TypeError; distance 0 returns the zero result immediately (no error,
whatever the bearing or height); then NaN bearing fails with TypeError; then a
nonzero height fails with RangeError.  So height is only checked for a numeric
nonzero distance and numeric bearing, and a NaN bearing only fails when the
distance is a nonzero number. -/
theorem claim1_guard_order :
    (∀ (p : VPoint) (brg : JsNum), direct p .nan brg = .error .typeError) ∧
    (∀ (p : VPoint) (brg : JsNum), direct p (.val 0) brg = .ok ⟨p, .nan, 0⟩) ∧
    (∀ (p : VPoint) (s : ℝ), s ≠ 0 → direct p (.val s) .nan = .error .typeError) ∧
    (∀ (p : VPoint) (s brg : ℝ), s ≠ 0 → p.height ≠ 0 →
      direct p (.val s) (.val brg) = .error .rangeError) :=
  ⟨direct_nan_distance, direct_zero_distance, direct_nan_bearing, direct_bad_height⟩

/-- Witness for C1: the guard-order theorem applied at concrete inputs. -/
theorem claim1_guard_order_witness :
    ((5 : ℝ) ≠ 0 ∧ (⟨0, 0, 1, none⟩ : VPoint).height ≠ 0) ∧
    direct ⟨0, 0, 1, none⟩ (.val 5) .nan = .error .typeError ∧
    direct ⟨0, 0, 1, none⟩ (.val 5) (.val 7) = .error .rangeError :=
  ⟨⟨by norm_num, by norm_num⟩,
    claim1_guard_order.2.2.1 ⟨0, 0, 1, none⟩ 5 (by norm_num),
    claim1_guard_order.2.2.2 ⟨0, 0, 1, none⟩ 5 7 (by norm_num) (by norm_num)⟩

/-- C2.  For every point `p` and every bearing value (NaN included), the direct
solution with distance 0 returns `p` itself, final bearing NaN, 0 iterations. -/
theorem claim2_zero_distance (p : VPoint) (brg : JsNum) :
    direct p (.val 0) brg = .ok ⟨p, .nan, 0⟩ :=
  direct_zero_distance p brg

/-- C3.  The sigma iteration of the direct solution performs at most 100
iterations; its count reaches 100 exactly when all 100 successive updates move
sigma by more than 1e-12; and `direct` fails with the non-convergence EvalError
exactly when its guards pass (nonzero numeric distance, numeric bearing, zero
height) and the iteration count reaches the 100 cap. -/
theorem claim3_iteration_cap :
    (∀ (g : ℝ → ℝ) (σ0 : ℝ), (directLoopF g 99 σ0 0).2.2 ≤ 100) ∧
    (∀ (g : ℝ → ℝ) (σ0 : ℝ),
      ((directLoopF g 99 σ0 0).2.2 = 100 ↔
        ∀ k < 100, 1e-12 < |g^[k + 1] σ0 - g^[k] σ0|)) ∧
    (∀ (p : VPoint) (s brg : ℝ),
      direct p (.val s) (.val brg) = .error .evalError ↔
        s ≠ 0 ∧ p.height = 0 ∧
          (directLoopF (directStep p brg s) 99 (directSigma0 p brg s) 0).2.2 = 100) := by
  refine ⟨?_, ?_, ?_⟩
  · intro g σ0
    have h := directLoopF_le g 99 σ0 0
    omega
  · intro g σ0
    have h := directLoopF_cap_iff g 99 σ0 0
    constructor
    · intro hcap k hk
      exact (h.mp (by omega)) k (by omega)
    · intro hall
      have := h.mpr (fun k hk => hall k (by omega))
      omega
  · intro p s brg
    unfold direct
    dsimp only
    by_cases hs : s = 0
    · rw [if_pos hs]
      simp [hs]
    · rw [if_neg hs]
      by_cases hh : p.height ≠ 0
      · rw [if_pos hh]
        simp [hh]
      · rw [if_neg hh]
        push_neg at hh
        by_cases hcap :
            100 ≤ (directLoopF (directStep p brg s) 99 (directSigma0 p brg s) 0).2.2
        · rw [if_pos hcap]
          have hle := directLoopF_le (directStep p brg s) 99 (directSigma0 p brg s) 0
          have h100 : (directLoopF (directStep p brg s) 99 (directSigma0 p brg s) 0).2.2
              = 100 := by omega
          simp [hs, hh, h100]
        · rw [if_neg hcap]
          have hne : (directLoopF (directStep p brg s) 99 (directSigma0 p brg s) 0).2.2
              ≠ 100 := by omega
          simp [hs, hh, hne]

/-- C4.  The inverse-based wrappers map the non-convergence EvalError of the
inverse solution to NaN and propagate every other kind of exception unchanged
(the inverse computation itself is not part of src/, so the wrappers are
verified over every possible inverse outcome). -/
theorem claim4_nonconvergence_to_nan :
    (DistanceTo (.error .evalError) = .ok .nan ∧
      InitialBearingTo (.error .evalError) = .ok .nan ∧
      FinalBearingTo (.error .evalError) = .ok .nan) ∧
    (DistanceTo (.error .typeError) = .error .typeError ∧
      InitialBearingTo (.error .typeError) = .error .typeError ∧
      FinalBearingTo (.error .typeError) = .error .typeError) ∧
    (DistanceTo (.error .rangeError) = .error .rangeError ∧
      InitialBearingTo (.error .rangeError) = .error .rangeError ∧
      FinalBearingTo (.error .rangeError) = .error .rangeError) :=
  ⟨⟨rfl, rfl, rfl⟩, ⟨rfl, rfl, rfl⟩, ⟨rfl, rfl, rfl⟩⟩

/-- C10 (code bug).  A successful direct solution from a datum-carrying origin:
the destination has height 0 and final bearing 90 (inside the claimed range
0..360), but carries no datum at all — the call on line 92 passes `this.datum`
to the 3-parameter base constructor, which silently drops it — contradicting
the claim (and the call's own intent, and the VB twin of this file, which
passes the datum through a 4-parameter constructor). -/
theorem claim10_destination_drops_datum :
    ∃ lat2 lon2,
      direct ⟨0, 0, 0, some ⟨wgs84Ellipsoid⟩⟩ (.val 1000) (.val 90) =
        .ok ⟨⟨lat2, lon2, 0, none⟩, .val 90, 0⟩ ∧
      (none : Option VDatum) ≠ some ⟨wgs84Ellipsoid⟩ ∧
      0 ≤ (90 : ℝ) ∧ (90 : ℝ) < 360 := by
  obtain ⟨la, lo, h⟩ := direct_origin_eval (some ⟨wgs84Ellipsoid⟩) 1000 (by norm_num)
  exact ⟨la, lo, h, by simp, by norm_num, by norm_num⟩

/- ### Claim theorems for point construction and wrapping (C9) -/

/-- C9 counterexample.  The claim states constructed longitudes lie in
(-180, 180], but `Dms.wrap180` returns in-range inputs unchanged, including
-180 (line 168's `-180 <= degrees && degrees <= 180` early return), so a point
constructed with longitude -180 keeps longitude -180. -/
theorem claim9_counterexample :
    latLonCtor (.val 0) (.val (-180)) (.val 0) = .ok ⟨0, -180, 0, none⟩ ∧
    ¬(-180 < (-180 : ℝ)) := by
  constructor
  · unfold latLonCtor
    dsimp only
    rw [wrap90_zero, wrap180_neg180]
  · norm_num

/-- C9 (amended).  Every constructed point has latitude in [-90, 90] (triangle
wave, 91 becomes 89) and longitude in [-180, 180] — the closed interval: an
in-range -180 is kept, out-of-range inputs wrap by the sawtooth into
[-180, 180), e.g. 181 becomes -179.  The numeric setters re-wrap identically. -/
theorem claim9_wrapping :
    (∀ x : ℝ, -90 ≤ wrap90 x ∧ wrap90 x ≤ 90) ∧
    (∀ x : ℝ, -180 ≤ wrap180 x ∧ wrap180 x ≤ 180) ∧
    (∀ la lo h : ℝ,
      latLonCtor (.val la) (.val lo) (.val h) = .ok ⟨wrap90 la, wrap180 lo, h, none⟩) ∧
    wrap90 91 = 89 ∧ wrap180 181 = -179 ∧
    (∀ (p : VPoint) (v : ℝ), (setLat p v).lat = wrap90 v ∧ (setLon p v).lon = wrap180 v) :=
  ⟨wrap90_mem, wrap180_mem, fun _ _ _ => rfl, wrap90_91, wrap180_181,
    fun _ _ => ⟨rfl, rfl⟩⟩

/- ### Reference frames (latlon-ellipsoidal-referenceframe, second part of
latlon-ellipsoidal-datum.js in src/) -/

/-- A reference frame from the `referenceFrames` registry: name, reference
epoch, ellipsoid. -/
structure ReferenceFrame where
  name : String
  epoch : ℝ
  ellipsoid : Ellipsoid

noncomputable def grs80Ellipsoid : Ellipsoid := ⟨6378137, 6356752.314140, 1 / 298.257222101⟩

noncomputable def frameITRF2014 : ReferenceFrame := ⟨"ITRF2014", 2010.0, grs80Ellipsoid⟩
noncomputable def frameITRF2008 : ReferenceFrame := ⟨"ITRF2008", 2005.0, grs80Ellipsoid⟩
noncomputable def frameITRF2005 : ReferenceFrame := ⟨"ITRF2005", 2000.0, grs80Ellipsoid⟩
noncomputable def frameITRF2000 : ReferenceFrame := ⟨"ITRF2000", 1997.0, grs80Ellipsoid⟩
noncomputable def frameITRF93 : ReferenceFrame := ⟨"ITRF93", 1988.0, grs80Ellipsoid⟩
noncomputable def frameITRF91 : ReferenceFrame := ⟨"ITRF91", 1988.0, grs80Ellipsoid⟩
noncomputable def frameWGS84g1762 : ReferenceFrame := ⟨"WGS84g1762", 2005.0, wgs84Ellipsoid⟩
noncomputable def frameWGS84g1674 : ReferenceFrame := ⟨"WGS84g1674", 2005.0, wgs84Ellipsoid⟩
noncomputable def frameWGS84g1150 : ReferenceFrame := ⟨"WGS84g1150", 2001.0, wgs84Ellipsoid⟩
noncomputable def frameETRF2000 : ReferenceFrame := ⟨"ETRF2000", 2005.0, grs80Ellipsoid⟩
noncomputable def frameNAD83 : ReferenceFrame := ⟨"NAD83", 1997.0, grs80Ellipsoid⟩
noncomputable def frameGDA94 : ReferenceFrame := ⟨"GDA94", 1994.0, grs80Ellipsoid⟩

/-- Seven Helmert parameters `[tx, ty, tz, s, rx, ry, rz]`. -/
structure Helmert7 where
  tx : ℝ
  ty : ℝ
  tz : ℝ
  s : ℝ
  rx : ℝ
  ry : ℝ
  rz : ℝ

/-- A stored 14-parameter transform entry between two named frames
(`txParams["A→B"] = { epoch, params, rates }`). -/
structure TxEntry where
  src : String
  dst : String
  epoch : ℝ
  params : Helmert7
  rates : Helmert7

/-- Modelled from the spec: the transform-parameter registry (the imported
file latlon-ellipsoidal-referenceframe-txparams.js is not under src/).  The
spec describes it as a fixed table of directed named-pair entries with a
reference epoch, 7 base parameters and 7 annual rates, but does not give the
values; none of the claims depends on its entries, so it is left empty. -/
noncomputable def txParams : List TxEntry := []

noncomputable def negHelmert (t : Helmert7) : Helmert7 :=
  ⟨-t.tx, -t.ty, -t.tz, -t.s, -t.rx, -t.ry, -t.rz⟩

/-- `reverseTransform` (inner function of `convertReferenceFrame`): negate all
14 parameters, keep the reference epoch. -/
noncomputable def reverseTransform (tx : TxEntry) : TxEntry :=
  ⟨tx.dst, tx.src, tx.epoch, negHelmert tx.params, negHelmert tx.rates⟩

/-- The prefix test `name.startsWith(prefix)` used by the ITRF/WGS84
near-equivalence shortcut, modelled on the character lists of the strings. -/
def strStartsWith (s pre : String) : Bool := pre.data.isPrefixOf s.data

/-- An ECEF Cartesian coordinate optionally tagged with a reference frame and
an observation epoch (`Cartesian_ReferenceFrame`). -/
structure CartesianRF where
  x : ℝ
  y : ℝ
  z : ℝ
  referenceFrame : Option ReferenceFrame
  epoch : Option ℝ

/-- Helmert 14-parameter transformation (`applyTransform`, reference-frame
variant): shifts in mm, scale in ppb, rotations in milliarcseconds, combined
with the annual rates over `δt` years.  The returned coordinate carries no
frame or epoch (the caller assigns them). -/
noncomputable def applyTransform14 (c : CartesianRF) (params rates : Helmert7) (δt : ℝ) :
    CartesianRF :=
  let tx := params.tx / 1000
  let ty := params.ty / 1000
  let tz := params.tz / 1000
  let s := params.s / 1e9
  let rx := toRadians (params.rx / 3600 / 1000)
  let ry := toRadians (params.ry / 3600 / 1000)
  let rz := toRadians (params.rz / 3600 / 1000)
  let rtx := rates.tx / 1000
  let rty := rates.ty / 1000
  let rtz := rates.tz / 1000
  let rs := rates.s / 1e9
  let rrx := toRadians (rates.rx / 3600 / 1000)
  let rry := toRadians (rates.ry / 3600 / 1000)
  let rrz := toRadians (rates.rz / 3600 / 1000)
  let Tx := tx + rtx * δt
  let Ty := ty + rty * δt
  let Tz := tz + rtz * δt
  let Rx := rx + rrx * δt
  let Ry := ry + rry * δt
  let Rz := rz + rrz * δt
  let S := 1 + s + rs * δt
  ⟨Tx + c.x * S - c.y * Rz + c.z * Ry,
   Ty + c.x * Rz + c.y * S - c.z * Rx,
   Tz - c.x * Ry + c.y * Rx + c.z * S, none, none⟩

/-- `Cartesian_ReferenceFrame.convertReferenceFrame` (lines 426-480 of the
reference-frame part).  Identity when the target has the same name; identity
for ITRF-to-WGS84 and WGS84-to-ITRF name-prefix pairs; otherwise a stored
forward or reversed single-step transform, else a chain through one common
intermediate frame; a missing chain raises (in JS, `reverseTransform` on an
undefined entry throws a TypeError). -/
noncomputable def convertReferenceFrame (c : CartesianRF) (toRF : ReferenceFrame) :
    Except VincentyError CartesianRF :=
  match c.referenceFrame with
  | none => .error .typeError
  | some oldTrf =>
    if oldTrf.name = toRF.name then .ok c
    else if strStartsWith oldTrf.name ("ITRF") && strStartsWith toRF.name ("WGS84") then .ok c
    else if strStartsWith oldTrf.name ("WGS84") && strStartsWith toRF.name ("ITRF") then .ok c
    else
      let txFwd := txParams.find? (fun tx => tx.src = oldTrf.name && tx.dst = toRF.name)
      let txRev := txParams.find? (fun tx => tx.src = toRF.name && tx.dst = oldTrf.name)
      let t := c.epoch.getD oldTrf.epoch
      match (match txFwd with | some tx => some tx | none => txRev.map reverseTransform) with
      | some tx =>
        let newC := applyTransform14 c tx.params tx.rates (t - tx.epoch)
        .ok ⟨newC.x, newC.y, newC.z, some toRF, some t⟩
      | none =>
        let fromOld := (txParams.filter (fun tx => tx.src = oldTrf.name)).map (·.dst)
        let toNew := (txParams.filter (fun tx => tx.dst = toRF.name)).map (·.src)
        let midFwd := (fromOld.filter (fun n => toNew.contains n)).head?
        let fromNew := (txParams.filter (fun tx => tx.src = toRF.name)).map (·.dst)
        let toOld := (txParams.filter (fun tx => tx.dst = oldTrf.name)).map (·.src)
        let midRev := (fromNew.filter (fun n => toOld.contains n)).head?
        match midFwd with
        | some mid =>
          match txParams.find? (fun tx => tx.src = oldTrf.name && tx.dst = mid),
                txParams.find? (fun tx => tx.src = mid && tx.dst = toRF.name) with
          | some tx1, some tx2 =>
            let c1 := applyTransform14 c tx1.params tx1.rates (t - tx1.epoch)
            let c2 := applyTransform14 c1 tx2.params tx2.rates (t - tx2.epoch)
            .ok ⟨c2.x, c2.y, c2.z, some toRF, some t⟩
          | _, _ => .error .typeError
        | none =>
          match midRev with
          | some mid =>
            match (txParams.find? (fun tx => tx.src = mid && tx.dst = oldTrf.name)).map
                    reverseTransform,
                  (txParams.find? (fun tx => tx.src = toRF.name && tx.dst = mid)).map
                    reverseTransform with
            | some tx1, some tx2 =>
              let c1 := applyTransform14 c tx1.params tx1.rates (t - tx1.epoch)
              let c2 := applyTransform14 c1 tx2.params tx2.rates (t - tx2.epoch)
              .ok ⟨c2.x, c2.y, c2.z, some toRF, some t⟩
            | _, _ => .error .typeError
          | none => .error .typeError

/-- C8.  Converting a frame-tagged Cartesian coordinate to a frame with the
same name is the identity, and converting between any ITRF-named and any
WGS84-named frame, in either direction, also returns the input unchanged. -/
theorem claim8_frame_conversion_identity :
    (∀ (c : CartesianRF) (f : ReferenceFrame) (toRF : ReferenceFrame),
      c.referenceFrame = some f → f.name = toRF.name →
        convertReferenceFrame c toRF = .ok c) ∧
    (∀ (c : CartesianRF) (f : ReferenceFrame) (toRF : ReferenceFrame),
      c.referenceFrame = some f →
      strStartsWith f.name ("ITRF") = true → strStartsWith toRF.name ("WGS84") = true →
        convertReferenceFrame c toRF = .ok c) ∧
    (∀ (c : CartesianRF) (f : ReferenceFrame) (toRF : ReferenceFrame),
      c.referenceFrame = some f →
      strStartsWith f.name ("WGS84") = true → strStartsWith toRF.name ("ITRF") = true →
        convertReferenceFrame c toRF = .ok c) := by
  refine ⟨?_, ?_, ?_⟩
  · intro c f toRF hc hname
    unfold convertReferenceFrame
    rw [hc]
    dsimp only
    rw [if_pos hname]
  · intro c f toRF hc h1 h2
    unfold convertReferenceFrame
    rw [hc]
    dsimp only
    by_cases hname : f.name = toRF.name
    · rw [if_pos hname]
    · rw [if_neg hname, if_pos (by rw [h1, h2]; rfl)]
  · intro c f toRF hc h1 h2
    unfold convertReferenceFrame
    rw [hc]
    dsimp only
    by_cases hname : f.name = toRF.name
    · rw [if_pos hname]
    · rw [if_neg hname]
      cases hmix : strStartsWith f.name ("ITRF") && strStartsWith toRF.name ("WGS84") with
      | true => rw [if_pos rfl]
      | false => rw [if_neg Bool.false_ne_true, if_pos (by rw [h1, h2]; rfl)]

/-- Witness for C8: identity conversions between the registry frames ITRF2014
and WGS84g1762. -/
theorem claim8_frame_conversion_identity_witness :
    convertReferenceFrame ⟨1, 2, 3, some frameITRF2014, none⟩ frameITRF2014 =
      .ok ⟨1, 2, 3, some frameITRF2014, none⟩ ∧
    convertReferenceFrame ⟨1, 2, 3, some frameITRF2014, none⟩ frameWGS84g1762 =
      .ok ⟨1, 2, 3, some frameITRF2014, none⟩ ∧
    convertReferenceFrame ⟨4, 5, 6, some frameWGS84g1150, none⟩ frameITRF2000 =
      .ok ⟨4, 5, 6, some frameWGS84g1150, none⟩ :=
  ⟨claim8_frame_conversion_identity.1 _ frameITRF2014 _ rfl rfl,
   claim8_frame_conversion_identity.2.1 _ frameITRF2014 _ rfl (by decide) (by decide),
   claim8_frame_conversion_identity.2.2 _ frameWGS84g1150 _ rfl (by decide) (by decide)⟩

/- ### Datums and Helmert 7-parameter transforms (latlon-ellipsoidal-datum.js,
first part).  A datum object as used by the Cartesian datum code, which reads
only `datum.ellipsoid` and `datum.transform`; both are absent on every entry
of this repository's `datums` table (the table stores bare `{a, b, f}`
ellipsoid parameters, lines 19-29, contradicting the accompanying comment
"datums; w/associated ellipsoid, and helmert transform parameters").  The
`name` field stands in for JavaScript object identity in the comparisons
against the registry entry `datums.WGS84`. -/

structure DDatum where
  name : String
  ellipsoid : Option Ellipsoid
  transform : Option Helmert7

/-- The registry entry `datums.WGS84` (line 20): only `{a, b, f}` fields, so
`ellipsoid` and `transform` are both undefined. -/
noncomputable def datumsWGS84 : DDatum := ⟨"WGS84", none, none⟩

/-- An ECEF Cartesian coordinate optionally tagged with a datum
(`Cartesian_Datum`). -/
structure CartesianD where
  x : ℝ
  y : ℝ
  z : ℝ
  datum : Option DDatum

/-- Helmert 7-parameter transformation (`Cartesian_Datum.applyTransform`,
lines 210-229): shifts in metres, scale in ppm, rotations in arcseconds.  The
returned coordinate carries no datum (the caller assigns it). -/
noncomputable def applyTransform (c : CartesianD) (t : Helmert7) : CartesianD :=
  let s := t.s / 1e6 + 1
  let rx := toRadians (t.rx / 3600)
  let ry := toRadians (t.ry / 3600)
  let rz := toRadians (t.rz / 3600)
  ⟨t.tx + c.x * s - c.y * rz + c.z * ry,
   t.ty + c.x * rz + c.y * s - c.z * rx,
   t.tz - c.x * ry + c.y * rx + c.z * s, none⟩

/-- `Cartesian_Datum.convertDatum` (lines 179-207), with an explicit fuel for
the source's recursion `this.convertDatum(datums.WGS84)`, whose depth is at
most one (the nested call's target is `datums.WGS84`, for which the
transform-selection cannot stay null).  Branches in source order, noting that
the source's second `if` (target is WGS84) overwrites the first (source is
WGS84), so it is tested first here; `transform == null` (a missing transform
on the selected datum, or `applyTransform` on an undefined transform, or the
`map` of an undefined `this.datum.transform`) surfaces as the JavaScript
TypeError it raises at runtime. -/
noncomputable def convertDatumFuel : ℕ → CartesianD → DDatum → Except VincentyError CartesianD
  | 0, _, _ => .error .typeError
  | fuel + 1, c, toDatum =>
    match toDatum.ellipsoid with
    | none => .error .typeError
    | some _ =>
      match c.datum with
      | none => .error .typeError
      | some d =>
        if toDatum.name = ("WGS84") then
          match d.transform with
          | none => .error .typeError
          | some t =>
            let newC := applyTransform c (negHelmert t)
            .ok ⟨newC.x, newC.y, newC.z, some toDatum⟩
        else if d.name = ("WGS84") then
          match toDatum.transform with
          | some t =>
            let newC := applyTransform c t
            .ok ⟨newC.x, newC.y, newC.z, some toDatum⟩
          | none =>
            match convertDatumFuel fuel c datumsWGS84 with
            | .error e => .error e
            | .ok old =>
              match toDatum.transform with
              | none => .error .typeError
              | some t =>
                let newC := applyTransform old t
                .ok ⟨newC.x, newC.y, newC.z, some toDatum⟩
        else
          match convertDatumFuel fuel c datumsWGS84 with
          | .error e => .error e
          | .ok old =>
            match toDatum.transform with
            | none => .error .typeError
            | some t =>
              let newC := applyTransform old t
              .ok ⟨newC.x, newC.y, newC.z, some toDatum⟩

noncomputable def convertDatum (c : CartesianD) (toDatum : DDatum) :
    Except VincentyError CartesianD :=
  convertDatumFuel 2 c toDatum

/-- C7 (code bug).  With well-formed caller-built datums (ellipsoid and
7-parameter transform present, as the `Datum` class of the VB twin in src/
builds them), every conversion between two non-WGS84 datums fails with a
TypeError: the mandatory two-hop path calls `convertDatum(datums.WGS84)`, and
the registry entry `datums.WGS84` has no `ellipsoid` field, so the
`unrecognised datum` guard fires.  Converting directly to the registry entry
fails at the same guard.  The dispatch code itself (lines 179-229) matches the
claim; the registry data contradicts it. -/
theorem claim7_convert_datum_fails :
    convertDatum
      ⟨1, 2, 3, some ⟨"OSGB36", some ⟨6377563.396, 6356256.909, 1 / 299.3249646⟩,
        some ⟨1, 2, 3, 4, 5, 6, 7⟩⟩⟩
      ⟨"NAD27", some ⟨6378206.4, 6356583.8, 1 / 294.978698214⟩,
        some ⟨8, 9, 10, 11, 12, 13, 14⟩⟩ = .error .typeError ∧
    convertDatum
      ⟨1, 2, 3, some ⟨"OSGB36", some ⟨6377563.396, 6356256.909, 1 / 299.3249646⟩,
        some ⟨1, 2, 3, 4, 5, 6, 7⟩⟩⟩
      datumsWGS84 = .error .typeError := by
  constructor
  · rfl
  · rfl

/- ### JavaScript double values with IEEE special cases.
`Cartesian.toLatLon` (latlon-ellipsoidal.js lines 209-240) relies on IEEE
semantics at the poles: a division by zero produces an infinity and
`Infinity/Infinity` produces NaN, which the `isNaN(cosβ)` branch then turns
into latitude 0.  `JsVal` models a double as a real number, an infinity, or
NaN (signed zeros are not separated; finite overflow is not modelled). -/

inductive JsVal where
  | num (x : ℝ) : JsVal
  | pinf : JsVal
  | ninf : JsVal
  | nan : JsVal

namespace JsVal

noncomputable def negj : JsVal → JsVal
  | num x => num (-x)
  | pinf => ninf
  | ninf => pinf
  | nan => nan

noncomputable def add : JsVal → JsVal → JsVal
  | nan, _ => nan
  | _, nan => nan
  | num x, num y => num (x + y)
  | num _, pinf => pinf
  | pinf, num _ => pinf
  | pinf, pinf => pinf
  | num _, ninf => ninf
  | ninf, num _ => ninf
  | ninf, ninf => ninf
  | pinf, ninf => nan
  | ninf, pinf => nan

noncomputable def sub (u v : JsVal) : JsVal := add u (negj v)

noncomputable def mul : JsVal → JsVal → JsVal
  | nan, _ => nan
  | _, nan => nan
  | num x, num y => num (x * y)
  | num x, pinf => if 0 < x then pinf else if x < 0 then ninf else nan
  | pinf, num y => if 0 < y then pinf else if y < 0 then ninf else nan
  | num x, ninf => if 0 < x then ninf else if x < 0 then pinf else nan
  | ninf, num y => if 0 < y then ninf else if y < 0 then pinf else nan
  | pinf, pinf => pinf
  | ninf, ninf => pinf
  | pinf, ninf => ninf
  | ninf, pinf => ninf

/-- Division; `x/0` for `x > 0` is `+Infinity` as for the IEEE `+0` divisor
(the sign of a zero divisor is not modelled). -/
noncomputable def div : JsVal → JsVal → JsVal
  | nan, _ => nan
  | _, nan => nan
  | num x, num y =>
    if y = 0 then (if 0 < x then pinf else if x < 0 then ninf else nan)
    else num (x / y)
  | num _, pinf => num 0
  | num _, ninf => num 0
  | pinf, num y => if 0 ≤ y then pinf else ninf
  | ninf, num y => if 0 ≤ y then ninf else pinf
  | pinf, pinf => nan
  | pinf, ninf => nan
  | ninf, pinf => nan
  | ninf, ninf => nan

noncomputable def sqrtj : JsVal → JsVal
  | num x => if x < 0 then nan else num (Real.sqrt x)
  | pinf => pinf
  | ninf => nan
  | nan => nan

noncomputable def sinj : JsVal → JsVal
  | num x => num (Real.sin x)
  | _ => nan

noncomputable def cosj : JsVal → JsVal
  | num x => num (Real.cos x)
  | _ => nan

/-- `Math.atan2` on finite arguments; the IEEE special finite results for
infinite arguments are not modelled (no call in `toLatLon` reaches them:
its `atan2` arguments are finite whenever the call is evaluated). -/
noncomputable def atan2j : JsVal → JsVal → JsVal
  | num y, num x => num (atan2 y x)
  | _, _ => nan

noncomputable def toDeg : JsVal → JsVal
  | num x => num (toDegrees x)
  | pinf => pinf
  | ninf => ninf
  | nan => nan

noncomputable def isNaNv : JsVal → Bool
  | nan => true
  | _ => false

theorem num_add (x y : ℝ) : add (num x) (num y) = num (x + y) := rfl

theorem num_mul (x y : ℝ) : mul (num x) (num y) = num (x * y) := rfl

theorem num_sub (x y : ℝ) : sub (num x) (num y) = num (x - y) := by
  show num (x + -y) = num (x - y)
  rw [← sub_eq_add_neg]

theorem num_div {x y : ℝ} (hy : y ≠ 0) : div (num x) (num y) = num (x / y) := by
  show (if y = 0 then _ else _) = _
  rw [if_neg hy]

theorem sqrtj_nonneg {x : ℝ} (h : 0 ≤ x) : sqrtj (num x) = num (Real.sqrt x) := by
  show (if x < 0 then _ else _) = _
  rw [if_neg (not_lt.mpr h)]

theorem div_pos_zero {x : ℝ} (h : 0 < x) : div (num x) (num 0) = pinf := by
  show (if (0 : ℝ) = 0 then _ else _) = _
  rw [if_pos rfl, if_pos h]

theorem div_neg_zero {x : ℝ} (h : x < 0) : div (num x) (num 0) = ninf := by
  show (if (0 : ℝ) = 0 then _ else _) = _
  rw [if_pos rfl, if_neg (not_lt.mpr h.le), if_pos h]

theorem mul_pinf_num {y : ℝ} (h : 0 < y) : mul pinf (num y) = pinf := by
  show (if 0 < y then _ else _) = _
  rw [if_pos h]

theorem mul_ninf_num {y : ℝ} (h : 0 < y) : mul ninf (num y) = ninf := by
  show (if 0 < y then _ else _) = _
  rw [if_pos h]


theorem mul_ninf_ninf : mul ninf ninf = pinf := rfl

theorem mul_pinf_pinf : mul pinf pinf = pinf := rfl

theorem add_num_pinf (x : ℝ) : add (num x) pinf = pinf := rfl

theorem sqrtj_pinf : sqrtj pinf = pinf := rfl

theorem div_pinf_pinf : div pinf pinf = nan := rfl

theorem div_ninf_pinf : div ninf pinf = nan := rfl

theorem div_nan_left (v : JsVal) : div nan v = nan := by
  cases v <;> rfl

theorem isNaNv_nan : isNaNv nan = true := rfl

theorem sinj_num (x : ℝ) : sinj (num x) = num (Real.sin x) := rfl

theorem cosj_num (x : ℝ) : cosj (num x) = num (Real.cos x) := rfl

theorem toDeg_num (x : ℝ) : toDeg (num x) = num (toDegrees x) := rfl

theorem atan2j_num (y x : ℝ) : atan2j (num y) (num x) = num (atan2 y x) := rfl

end JsVal

/-- `Cartesian.toLatLon(ellipsoid)` (latlon-ellipsoidal.js lines 209-240):
Bowring's single-pass Cartesian-to-geodetic conversion.  The guard models the
source's `!ellipsoid || !ellipsoid.a` (an `a` of 0 is falsy).  The body is
evaluated in `JsVal` with the source's left-to-right association; the final
`new LatLonEllipsoidal(φ.toDegrees(), λ.toDegrees(), h)` rejects NaN
components with a TypeError and wraps latitude/longitude (an infinite
component cannot arise from finite inputs, so only the finite constructor
case is represented). -/
noncomputable def toLatLon (x y z : ℝ) (ell : Ellipsoid) : Except VincentyError VPoint :=
  if ell.a = 0 then .error .typeError
  else
    let X := JsVal.num x
    let Y := JsVal.num y
    let Z := JsVal.num z
    let a := JsVal.num ell.a
    let b := JsVal.num ell.b
    let f := JsVal.num ell.f
    let e2 := ((JsVal.num 2).mul f).sub (f.mul f)
    let ε2 := e2.div ((JsVal.num 1).sub e2)
    let p := ((X.mul X).add (Y.mul Y)).sqrtj
    let R := ((p.mul p).add (Z.mul Z)).sqrtj
    let tanβ := ((b.mul Z).div (a.mul p)).mul ((JsVal.num 1).add ((ε2.mul b).div R))
    let sinβ := tanβ.div (((JsVal.num 1).add (tanβ.mul tanβ)).sqrtj)
    let cosβ := sinβ.div tanβ
    let φ := if cosβ.isNaNv then JsVal.num 0
      else JsVal.atan2j (Z.add ((ε2.mul b).mul sinβ |>.mul sinβ |>.mul sinβ))
        (p.sub ((e2.mul a).mul cosβ |>.mul cosβ |>.mul cosβ))
    let lamj := JsVal.atan2j Y X
    let sinφ := φ.sinj
    let cosφ := φ.cosj
    let ν := a.div (((JsVal.num 1).sub (e2.mul sinφ |>.mul sinφ)).sqrtj)
    let h := ((p.mul cosφ).add (Z.mul sinφ)).sub ((a.mul a).div ν)
    match φ.toDeg, lamj.toDeg, h with
    | .num la, .num lo, .num hh => .ok ⟨wrap90 la, wrap180 lo, hh, none⟩
    | _, _, _ => .error .typeError

theorem toDegrees_zero : toDegrees 0 = 0 := by
  unfold toDegrees
  ring

theorem wrap180_zero : wrap180 0 = 0 := by
  unfold wrap180
  rw [if_pos (by norm_num)]

/- ### Behaviour of the Cartesian-to-geodetic conversion on the polar axis -/

theorem toLatLon_axis_lat (ell : Ellipsoid) (z : ℝ) (ha : 0 < ell.a) (hb : 0 < ell.b)
    (hf0 : 0 < ell.f) (hf1 : ell.f < 1) (hz : z ≠ 0) :
    ∃ hh, toLatLon 0 0 z ell = .ok ⟨0, 0, hh, none⟩ := by
  have haz : ell.a ≠ 0 := ne_of_gt ha
  have he2pos : 0 < 2 * ell.f - ell.f * ell.f := by nlinarith
  have he2lt : (0 : ℝ) < 1 - (2 * ell.f - ell.f * ell.f) := by nlinarith
  have hzz : 0 < z * z := mul_self_pos.mpr hz
  have hsq : 0 < Real.sqrt (z * z) := Real.sqrt_pos.mpr hzz
  have hw : 0 < 1 + (2 * ell.f - ell.f * ell.f) / (1 - (2 * ell.f - ell.f * ell.f))
      * ell.b / Real.sqrt (z * z) := by positivity
  unfold toLatLon
  rw [if_neg haz]
  dsimp only
  simp only [JsVal.num_mul, JsVal.num_add, JsVal.num_sub, mul_zero, zero_mul,
    add_zero, zero_add]
  rw [JsVal.sqrtj_nonneg (le_refl (0 : ℝ)), Real.sqrt_zero]
  simp only [JsVal.num_mul, JsVal.num_add, mul_zero, zero_mul, add_zero, zero_add]
  rw [JsVal.sqrtj_nonneg (mul_self_nonneg z)]
  rw [JsVal.num_div (ne_of_gt he2lt)]
  simp only [JsVal.num_mul]
  rw [JsVal.num_div (ne_of_gt hsq)]
  simp only [JsVal.num_add]
  rcases lt_or_gt_of_ne hz with hneg | hpos
  · rw [JsVal.div_neg_zero (by nlinarith : ell.b * z < 0)]
    rw [JsVal.mul_ninf_num hw]
    rw [JsVal.mul_ninf_ninf, JsVal.add_num_pinf, JsVal.sqrtj_pinf, JsVal.div_ninf_pinf,
      JsVal.div_nan_left, JsVal.isNaNv_nan]
    rw [if_pos rfl]
    simp only [JsVal.sinj_num, JsVal.cosj_num, Real.sin_zero, Real.cos_zero, JsVal.num_mul,
      mul_zero, zero_mul, mul_one, JsVal.num_add, add_zero, zero_add, JsVal.num_sub, sub_zero]
    rw [JsVal.sqrtj_nonneg zero_le_one, Real.sqrt_one]
    rw [JsVal.num_div one_ne_zero]
    simp only [div_one]
    rw [JsVal.num_div haz]
    rw [JsVal.toDeg_num, toDegrees_zero, JsVal.atan2j_num, atan2_zero_zero, JsVal.toDeg_num,
      toDegrees_zero]
    rw [JsVal.num_sub]
    dsimp only
    rw [wrap90_zero, wrap180_zero]
    exact ⟨_, rfl⟩
  · rw [JsVal.div_pos_zero (by nlinarith : 0 < ell.b * z)]
    rw [JsVal.mul_pinf_num hw]
    rw [JsVal.mul_pinf_pinf, JsVal.add_num_pinf, JsVal.sqrtj_pinf, JsVal.div_pinf_pinf,
      JsVal.div_nan_left, JsVal.isNaNv_nan]
    rw [if_pos rfl]
    simp only [JsVal.sinj_num, JsVal.cosj_num, Real.sin_zero, Real.cos_zero, JsVal.num_mul,
      mul_zero, zero_mul, mul_one, JsVal.num_add, add_zero, zero_add, JsVal.num_sub, sub_zero]
    rw [JsVal.sqrtj_nonneg zero_le_one, Real.sqrt_one]
    rw [JsVal.num_div one_ne_zero]
    simp only [div_one]
    rw [JsVal.num_div haz]
    rw [JsVal.toDeg_num, toDegrees_zero, JsVal.atan2j_num, atan2_zero_zero, JsVal.toDeg_num,
      toDegrees_zero]
    rw [JsVal.num_sub]
    dsimp only
    rw [wrap90_zero, wrap180_zero]
    exact ⟨_, rfl⟩

/-- C6 counterexample.  On the polar axis (x = y = 0, here z = 1 > 0 on the
WGS84 ellipsoid) the claim expects latitude +90; the code produces latitude 0:
`tanβ` evaluates to an infinity, `sinβ` and `cosβ` to NaN, and the
`isNaN(cosβ)` fallback sets `φ = 0` (longitude is also 0). -/
theorem claim6_counterexample :
    (∃ hh, toLatLon 0 0 1 wgs84Ellipsoid = .ok ⟨0, 0, hh, none⟩) ∧ (0 : ℝ) ≠ 90 := by
  constructor
  · exact toLatLon_axis_lat wgs84Ellipsoid 1 (by norm_num [wgs84Ellipsoid])
      (by norm_num [wgs84Ellipsoid]) (by norm_num [wgs84Ellipsoid])
      (by norm_num [wgs84Ellipsoid]) (by norm_num)
  · norm_num

/-- C6 (amended).  For a Cartesian point on the polar axis (x = y = 0, z
nonzero) on any ellipsoid with `0 < b`, `0 < a` and flattening in (0, 1), the
conversion does not return the pole: `tanβ = (b·z)/(a·0)` is an infinity,
`sinβ = ∞/∞` and hence `cosβ` are NaN, and the degenerate-β fallback
`isNaN(cosβ) ? 0 : ...` yields latitude 0 (and longitude `atan2(0,0) = 0`),
for either sign of z. -/
theorem claim6_pole_fallback (ell : Ellipsoid) (z : ℝ) (ha : 0 < ell.a) (hb : 0 < ell.b)
    (hf0 : 0 < ell.f) (hf1 : ell.f < 1) (hz : z ≠ 0) :
    ∃ hh, toLatLon 0 0 z ell = .ok ⟨0, 0, hh, none⟩ :=
  toLatLon_axis_lat ell z ha hb hf0 hf1 hz

/-- Witness for C6: the fallback theorem applied on the WGS84 ellipsoid with
z = -1. -/
theorem claim6_pole_fallback_witness :
    (0 < wgs84Ellipsoid.a ∧ 0 < wgs84Ellipsoid.b ∧ 0 < wgs84Ellipsoid.f ∧
      wgs84Ellipsoid.f < 1 ∧ (-1 : ℝ) ≠ 0) ∧
    ∃ hh, toLatLon 0 0 (-1) wgs84Ellipsoid = .ok ⟨0, 0, hh, none⟩ :=
  ⟨⟨by norm_num [wgs84Ellipsoid], by norm_num [wgs84Ellipsoid],
    by norm_num [wgs84Ellipsoid], by norm_num [wgs84Ellipsoid], by norm_num⟩,
   claim6_pole_fallback wgs84Ellipsoid (-1) (by norm_num [wgs84Ellipsoid])
     (by norm_num [wgs84Ellipsoid]) (by norm_num [wgs84Ellipsoid])
     (by norm_num [wgs84Ellipsoid]) (by norm_num)⟩

/-- Witness for C3: the cap bound applied to a concrete step function and
start value. -/
theorem claim3_iteration_cap_witness :
    (directLoopF (fun _ => 0) 99 (5 : ℝ) 0).2.2 ≤ 100 :=
  claim3_iteration_cap.1 (fun _ => 0) 5
